import Mathlib

/-!
Shallow embedding of the task-management front-end
(`src/app/services/task.service.ts`, `src/app/components/task-list` controller,
`src/app/models/task.model.ts`, `src/app/models/task.constants.ts`) and proofs
about its filter-parameter construction, client-side validation, and the
list-controller state transitions.

Strings are modelled by Lean `String`; JavaScript `.trim()` is modelled by
`jsTrim` (dropping leading and trailing whitespace characters) and `.length`
by `strLen` (number of characters).  JavaScript numbers holding priorities are
modelled by `Int`.  Optional (possibly-`undefined`) values are modelled by
`Option`.  HTTP calls are modelled as emitted `ApiRequest` values; the
asynchronous completion of a request is modelled by a separate `…Complete`
function taking the request's `Outcome`.
-/

namespace TaskMgmt

/-- Model of JavaScript string `.trim()`: drop leading and trailing
whitespace characters. -/
def jsTrim (s : String) : String :=
  ⟨((s.data.dropWhile Char.isWhitespace).reverse.dropWhile Char.isWhitespace).reverse⟩

/-- Model of JavaScript string `.length`: the number of characters. -/
def strLen (s : String) : Nat :=
  s.data.length

/-- Truthiness of an optional JavaScript string: `undefined`, and the empty
string, are falsy. -/
def idTruthy : Option String → Bool
  | none => false
  | some s => s ≠ ""

/-- Truthiness of a JavaScript number (`NaN` is not modelled): `0` is falsy,
every other number is truthy. -/
def jsFalsyNum (n : Int) : Bool :=
  n == 0

/-- Model of `Task` from `task.model.ts`.  `id`, `dueDate`, `createdAt` and
`updatedAt` are optional there; `status` is the string enum
`TODO | IN_PROGRESS | DONE` at the type level but an arbitrary string at
runtime, so it is modelled as `String`. -/
structure Task where
  id : Option String
  title : String
  description : String
  status : String
  priority : Int
  dueDate : Option String
  createdAt : Option String
  updatedAt : Option String
deriving Repr, DecidableEq

/-- Model of `TaskFilterParams` from `task.model.ts`: every field optional. -/
structure TaskFilterParams where
  status : Option String := none
  priority : Option Int := none
  dueDateFrom : Option String := none
  dueDateTo : Option String := none
  search : Option String := none
  sortBy : Option String := none
  sortDirection : Option String := none
deriving Repr, DecidableEq

/-! Constants from `task.constants.ts` (`TASK_CONSTANTS`). -/

/-- `TASK_CONSTANTS.PRIORITY.MIN`. -/
def PRIORITY_MIN : Int := 1

/-- `TASK_CONSTANTS.PRIORITY.MAX`. -/
def PRIORITY_MAX : Int := 5

/-- `TASK_CONSTANTS.PRIORITY.DEFAULT`. -/
def PRIORITY_DEFAULT : Int := 3

/-- `TASK_CONSTANTS.VALIDATION.TITLE_MAX_LENGTH`. -/
def TITLE_MAX_LENGTH : Nat := 200

/-- `TASK_CONSTANTS.VALIDATION.DESCRIPTION_MAX_LENGTH`. -/
def DESCRIPTION_MAX_LENGTH : Nat := 1000

/-- `TASK_CONSTANTS.DEFAULTS.SORT_BY`. -/
def DEFAULT_SORT_BY : String := "priority"

/-- `TASK_CONSTANTS.DEFAULTS.SORT_DIRECTION`. -/
def DEFAULT_SORT_DIRECTION : String := "asc"

/-- `TASK_CONSTANTS.ERROR_MESSAGES.LOAD_FAILED`. -/
def LOAD_FAILED : String := "Failed to load tasks. Please try again."

/-- `TASK_CONSTANTS.ERROR_MESSAGES.CREATE_FAILED`. -/
def CREATE_FAILED : String := "Failed to create task. Please try again."

/-- `TASK_CONSTANTS.ERROR_MESSAGES.UPDATE_FAILED`. -/
def UPDATE_FAILED : String := "Failed to update task. Please try again."

/-- `TASK_CONSTANTS.ERROR_MESSAGES.DELETE_FAILED`. -/
def DELETE_FAILED : String := "Failed to delete task. Please try again."

/-- `TASK_CONSTANTS.ERROR_MESSAGES.TITLE_REQUIRED`. -/
def TITLE_REQUIRED : String := "Title is required"

/-- `TASK_CONSTANTS.ERROR_MESSAGES.TITLE_TOO_LONG`. -/
def TITLE_TOO_LONG : String := "Title must be less than 200 characters"

/-- `TASK_CONSTANTS.ERROR_MESSAGES.DESCRIPTION_REQUIRED`. -/
def DESCRIPTION_REQUIRED : String := "Description is required"

/-- `TASK_CONSTANTS.ERROR_MESSAGES.STATUS_REQUIRED`. -/
def STATUS_REQUIRED : String := "Status is required"

/-- `TASK_CONSTANTS.ERROR_MESSAGES.PRIORITY_INVALID`. -/
def PRIORITY_INVALID : String := "Priority must be between 1 and 5"

/-- `TASK_CONSTANTS.PRIORITY.LABELS`. -/
def PRIORITY_LABELS : List (Int × String) :=
  [(1, "Critical"), (2, "High"), (3, "Medium"), (4, "Low"), (5, "Very Low")]

/-- `TASK_CONSTANTS.PRIORITY.ICONS`. -/
def PRIORITY_ICONS : List (Int × String) :=
  [(1, "bi bi-exclamation-circle-fill"), (2, "bi bi-exclamation-triangle-fill"),
   (3, "bi bi-info-circle-fill"), (4, "bi bi-dash-circle-fill"),
   (5, "bi bi-circle-fill")]

/-- `TASK_CONSTANTS.PRIORITY.CLASSES`. -/
def PRIORITY_CLASSES : List (Int × String) :=
  [(1, "bg-priority-critical"), (2, "bg-priority-high"), (3, "bg-priority-medium"),
   (4, "bg-priority-low"), (5, "bg-priority-very-low")]

/-- `TASK_CONSTANTS.STATUS.LABELS`. -/
def STATUS_LABELS : List (String × String) :=
  [("TODO", "To Do"), ("IN_PROGRESS", "In Progress"), ("DONE", "Done")]

/-- `TASK_CONSTANTS.STATUS.ICONS`. -/
def STATUS_ICONS : List (String × String) :=
  [("TODO", "bi bi-clipboard"), ("IN_PROGRESS", "bi bi-arrow-repeat"),
   ("DONE", "bi bi-check-circle-fill")]

/-- `TASK_CONSTANTS.STATUS.CLASSES`. -/
def STATUS_CLASSES : List (String × String) :=
  [("TODO", "bg-status-todo"), ("IN_PROGRESS", "bg-status-in-progress"),
   ("DONE", "bg-status-done")]

/-! The API client `TaskService.getAllTasks` query-parameter construction. -/

/-- One conditional `params.set(name, v)` for an optional string field of
`TaskFilterParams`: the source guards each with `if (filters.f)`, so the
parameter is emitted exactly when the field is defined and non-empty. -/
def strParam (name : String) (v : Option String) : List (String × String) :=
  match v with
  | some s => if s = "" then [] else [(name, s)]
  | none => []

/-- The `params.set` for the numeric `priority` field: the source guards it
with `if (filters.priority !== undefined)` and encodes
`filters.priority.toString()`, so the parameter is emitted exactly when the
field is defined, even when it is `0`. -/
def intParam (name : String) (v : Option Int) : List (String × String) :=
  match v with
  | some n => [(name, toString n)]
  | none => []

/-- Model of `TaskService.getAllTasks` restricted to the query parameters it
puts on the GET request (`HttpParams` built by successive `set` calls on
pairwise-distinct names, hence a simple ordered list of name-value pairs). -/
def getAllTasksParams : Option TaskFilterParams → List (String × String)
  | none => []
  | some f =>
      strParam "status" f.status ++
      intParam "priority" f.priority ++
      strParam "dueDateFrom" f.dueDateFrom ++
      strParam "dueDateTo" f.dueDateTo ++
      strParam "search" f.search ++
      strParam "sortBy" f.sortBy ++
      strParam "sortDirection" f.sortDirection

/-! The list-controller component (`TaskListComponent`). -/

/-- Model of `TaskListComponent.validateTask`.  Besides the boolean result it
returns the message of the first failing check (the argument of the `alert`
call), `none` when validation passes; the checks run in source order and
short-circuit.  `!title?.trim()` is trimmed-emptiness, `!status` is string
falsiness, `!priority` is numeric falsiness (`priority = 0`). -/
def validateTask (t : Task) : Bool × Option String :=
  if jsTrim t.title = "" then (false, some TITLE_REQUIRED)
  else if strLen t.title > TITLE_MAX_LENGTH then (false, some TITLE_TOO_LONG)
  else if jsTrim t.description = "" then (false, some DESCRIPTION_REQUIRED)
  else if t.status = "" then (false, some STATUS_REQUIRED)
  else if t.priority = 0 ∨ t.priority < PRIORITY_MIN ∨ t.priority > PRIORITY_MAX then
    (false, some PRIORITY_INVALID)
  else (true, none)

/-- Model of `TaskListComponent.getEmptyTask`. -/
def getEmptyTask : Task :=
  { id := none, title := "", description := "", status := "TODO",
    priority := PRIORITY_DEFAULT, dueDate := some "", createdAt := none,
    updatedAt := none }

/-- The mutable fields of `TaskListComponent`. -/
structure ComponentState where
  tasks : List Task
  filteredTasks : List Task
  filterStatus : String
  filterPriority : String
  searchQuery : String
  dueDateFrom : String
  dueDateTo : String
  sortBy : String
  sortDirection : String
  showModal : Bool
  isEditMode : Bool
  currentTask : Task
  showDetailsModal : Bool
  selectedTask : Option Task
  loading : Bool
  error : String
deriving Repr, DecidableEq

/-- The component's initial field values. -/
def initialState : ComponentState :=
  { tasks := [], filteredTasks := [], filterStatus := "", filterPriority := "",
    searchQuery := "", dueDateFrom := "", dueDateTo := "",
    sortBy := DEFAULT_SORT_BY, sortDirection := DEFAULT_SORT_DIRECTION,
    showModal := false, isEditMode := false, currentTask := getEmptyTask,
    showDetailsModal := false, selectedTask := none, loading := false,
    error := "" }

/-- Model of JavaScript `parseInt(s, 10)` on the strings the priority filter
field takes (the empty string or a run of decimal digits): fold the leading
digits.  The source only ever calls it on a non-empty field. -/
def parseIntDec (s : String) : Int :=
  Int.ofNat ((s.data.takeWhile Char.isDigit).foldl (fun a c => a * 10 + (c.toNat - 48)) 0)

/-- Model of `TaskListComponent.buildFilterParams`: each field of the result
is set exactly when the corresponding component field is truthy (non-empty). -/
def buildFilterParams (s : ComponentState) : TaskFilterParams :=
  { status := if s.filterStatus = "" then none else some s.filterStatus,
    priority := if s.filterPriority = "" then none else some (parseIntDec s.filterPriority),
    search := if s.searchQuery = "" then none else some s.searchQuery,
    dueDateFrom := if s.dueDateFrom = "" then none else some s.dueDateFrom,
    dueDateTo := if s.dueDateTo = "" then none else some s.dueDateTo,
    sortBy := if s.sortBy = "" then none else some s.sortBy,
    sortDirection := if s.sortDirection = "" then none else some s.sortDirection }

/-- A network request issued by the component through `TaskService`. -/
inductive ApiRequest where
  | listTasks (params : List (String × String))
  | createTask (t : Task)
  | updateTask (id : String) (t : Task)
  | deleteTask (id : String)
deriving Repr, DecidableEq

/-- Outcome of an asynchronous request: the `next` payload or an `error`. -/
inductive Outcome (α : Type) where
  | success (data : α)
  | failure
deriving Repr, DecidableEq

/-- Model of the synchronous part of `TaskListComponent.loadTasks`: set
`loading`, clear `error`, and issue `getAllTasks` with the filter parameters
built from the current fields. -/
def loadTasksStart (s : ComponentState) : ComponentState × List ApiRequest :=
  ({ s with loading := true, error := "" },
   [ApiRequest.listTasks (getAllTasksParams (some (buildFilterParams s)))])

/-- Model of the `loadTasks` subscription handlers together with the
`finalize` operator: on success the response array replaces both `tasks` and
`filteredTasks`; on failure the fixed load-failed message is set; `loading`
is cleared on either outcome. -/
def loadTasksComplete (s : ComponentState) : Outcome (List Task) → ComponentState
  | Outcome.success data =>
      { s with tasks := data, filteredTasks := data, loading := false }
  | Outcome.failure =>
      { s with error := LOAD_FAILED, loading := false }

/-- Model of `TaskListComponent.applyFilters`: exactly `loadTasks`. -/
def applyFilters (s : ComponentState) : ComponentState × List ApiRequest :=
  loadTasksStart s

/-- Model of `TaskListComponent.clearFilters`: reset every filter field to
its default value, then call `loadTasks`. -/
def clearFilters (s : ComponentState) : ComponentState × List ApiRequest :=
  loadTasksStart
    { s with filterStatus := "", filterPriority := "", searchQuery := "",
             dueDateFrom := "", dueDateTo := "", sortBy := DEFAULT_SORT_BY,
             sortDirection := DEFAULT_SORT_DIRECTION }

/-- Model of `TaskListComponent.openCreateModal`. -/
def openCreateModal (s : ComponentState) : ComponentState :=
  { s with isEditMode := false, currentTask := getEmptyTask, showModal := true }

/-- Model of `TaskListComponent.openEditModal` (the draft is a by-value copy
of the given task). -/
def openEditModal (s : ComponentState) (t : Task) : ComponentState :=
  { s with isEditMode := true, currentTask := t, showModal := true }

/-- Model of `TaskListComponent.closeModal`. -/
def closeModal (s : ComponentState) : ComponentState :=
  { s with showModal := false, currentTask := getEmptyTask, error := "" }

/-- Model of the synchronous part of `TaskListComponent.saveTask`: abort with
no request and no state change when validation fails; otherwise set `loading`
and issue `updateTask` when `isEditMode && currentTask.id` is truthy,
`createTask` otherwise. -/
def saveTask (s : ComponentState) : ComponentState × List ApiRequest :=
  if (validateTask s.currentTask).1 = false then (s, [])
  else
    ({ s with loading := true },
     [if s.isEditMode && idTruthy s.currentTask.id then
        ApiRequest.updateTask (s.currentTask.id.getD "") s.currentTask
      else
        ApiRequest.createTask s.currentTask])

/-- Model of the `saveTask` subscription handlers together with `finalize`:
on success the handler calls `loadTasks()` (issuing a reload) then
`closeModal()`, after which `finalize` clears `loading`; on failure a
mode-specific message is set and `loading` is cleared. -/
def saveTaskComplete (s : ComponentState) : Outcome Task → ComponentState × List ApiRequest
  | Outcome.success _ =>
      ({ closeModal (loadTasksStart s).1 with loading := false },
       (loadTasksStart s).2)
  | Outcome.failure =>
      ({ s with error := if s.isEditMode then UPDATE_FAILED else CREATE_FAILED,
                loading := false }, [])

/-- Model of the synchronous part of `TaskListComponent.deleteTask`: no-op
when the id is falsy (`undefined` or empty) or the blocking confirmation is
declined; otherwise set `loading` and issue the delete request. -/
def deleteTaskOp (s : ComponentState) (id : Option String) (confirmAnswer : Bool) :
    ComponentState × List ApiRequest :=
  if idTruthy id = false then (s, [])
  else if confirmAnswer = false then (s, [])
  else ({ s with loading := true }, [ApiRequest.deleteTask (id.getD "")])

/-- Model of the `deleteTask` subscription handlers together with `finalize`:
on success the handler calls `loadTasks()` (issuing a reload) after which
`finalize` clears `loading`; on failure the fixed delete-failed message is
set and `loading` is cleared. -/
def deleteTaskComplete (s : ComponentState) : Outcome Unit → ComponentState × List ApiRequest
  | Outcome.success _ =>
      ({ (loadTasksStart s).1 with loading := false }, (loadTasksStart s).2)
  | Outcome.failure =>
      ({ s with error := DELETE_FAILED, loading := false }, [])

/-- Model of `TaskListComponent.viewTaskDetails`. -/
def viewTaskDetails (s : ComponentState) (t : Task) : ComponentState :=
  { s with selectedTask := some t, showDetailsModal := true }

/-- Model of `TaskListComponent.closeDetailsModal`. -/
def closeDetailsModal (s : ComponentState) : ComponentState :=
  { s with showDetailsModal := false, selectedTask := none }

/-- Model of `TaskListComponent.getTaskCountByStatus`: the number of entries
of `filteredTasks` whose status equals the given string. -/
def getTaskCountByStatus (s : ComponentState) (status : String) : Nat :=
  (s.filteredTasks.filter fun t => t.status == status).length

/-- Model of `TaskListComponent.getPriorityLabel`:
`PRIORITY.LABELS[priority] || 'Unknown'`. -/
def getPriorityLabel (p : Int) : String :=
  (PRIORITY_LABELS.lookup p).getD "Unknown"

/-- Model of `TaskListComponent.getPriorityIcon`:
`PRIORITY.ICONS[priority] || 'bi bi-circle'`. -/
def getPriorityIcon (p : Int) : String :=
  (PRIORITY_ICONS.lookup p).getD "bi bi-circle"

/-- Model of `TaskListComponent.getPriorityClass`:
`PRIORITY.CLASSES[priority] || 'bg-secondary'`. -/
def getPriorityClass (p : Int) : String :=
  (PRIORITY_CLASSES.lookup p).getD "bg-secondary"

/-- Model of `TaskListComponent.getStatusLabel`:
`STATUS.LABELS[status] || status` — the fallback is the input itself. -/
def getStatusLabel (st : String) : String :=
  (STATUS_LABELS.lookup st).getD st

/-- Model of `TaskListComponent.getStatusIcon`:
`STATUS.ICONS[status] || 'bi bi-question-circle'`. -/
def getStatusIcon (st : String) : String :=
  (STATUS_ICONS.lookup st).getD "bi bi-question-circle"

/-- Model of `TaskListComponent.getStatusClass`:
`STATUS.CLASSES[status] || 'bg-secondary'`. -/
def getStatusClass (st : String) : String :=
  (STATUS_CLASSES.lookup st).getD "bg-secondary"

/-- Model of `TaskListComponent.getTimeAgo` as a function of the age
`diffInSeconds = Math.floor((now - past) / 1000)` and of the absolute-date
rendering `past.toLocaleDateString()` (locale formatting is outside the
model, so that string is a parameter); `Math.floor` of a quotient is `fdiv`. -/
def getTimeAgo (diffInSeconds : Int) (absDate : String) : String :=
  if diffInSeconds < 60 then "Just now"
  else if diffInSeconds < 3600 then toString (diffInSeconds.fdiv 60) ++ "m ago"
  else if diffInSeconds < 86400 then toString (diffInSeconds.fdiv 3600) ++ "h ago"
  else if diffInSeconds < 604800 then toString (diffInSeconds.fdiv 86400) ++ "d ago"
  else absDate

/-- Modelled from the spec: the §3 data-model invariant for a draft (the
source has no single function stating it) — title non-empty after trimming
and of length 1–200, description non-empty after trimming and of length at
most `DESCRIPTION_MAX_LENGTH`, status set, priority in `[1, 5]`. -/
def specDataInvariant (t : Task) : Bool :=
  (jsTrim t.title != "") && (1 ≤ strLen t.title) && (strLen t.title ≤ TITLE_MAX_LENGTH) &&
  (jsTrim t.description != "") && (strLen t.description ≤ DESCRIPTION_MAX_LENGTH) &&
  (t.status != "") && (PRIORITY_MIN ≤ t.priority) && (t.priority ≤ PRIORITY_MAX)

/-- The well-formed draft used by the component tests:
`{title:"Valid Title", description:"Valid Description", status:"TODO", priority:3}`. -/
def wellFormedDraft : Task :=
  { id := none, title := "Valid Title", description := "Valid Description",
    status := "TODO", priority := 3, dueDate := none, createdAt := none,
    updatedAt := none }

/-- The well-formed draft with its title emptied. -/
def emptyTitleDraft : Task :=
  { wellFormedDraft with title := "" }

/-- The well-formed draft with a title of 201 characters. -/
def longTitleDraft : Task :=
  { wellFormedDraft with title := String.mk (List.replicate 201 'a') }

/-- The well-formed draft with its description emptied. -/
def emptyDescriptionDraft : Task :=
  { wellFormedDraft with description := "" }

/-- The well-formed draft with priority 10. -/
def priorityTenDraft : Task :=
  { wellFormedDraft with priority := 10 }

/-- The well-formed draft with a description of 1001 characters. -/
def longDescriptionDraft : Task :=
  { wellFormedDraft with description := String.mk (List.replicate 1001 'a') }

/-- A component state in edit mode whose draft is valid but has no id. -/
def editNoIdState : ComponentState :=
  { initialState with isEditMode := true, currentTask := wellFormedDraft }

/-- A component state in edit mode whose draft is valid and has id `"42"`. -/
def editWithIdState : ComponentState :=
  { initialState with
    isEditMode := true
    currentTask := { wellFormedDraft with id := some "42" } }

/-- One state transition of the component: any of its mutating operations,
with arbitrary arguments and request outcomes. -/
inductive Step : ComponentState → ComponentState → Prop where
  | loadStart (s : ComponentState) : Step s (loadTasksStart s).1
  | loadComplete (s : ComponentState) (o : Outcome (List Task)) :
      Step s (loadTasksComplete s o)
  | applyF (s : ComponentState) : Step s (applyFilters s).1
  | clearF (s : ComponentState) : Step s (clearFilters s).1
  | openCreate (s : ComponentState) : Step s (openCreateModal s)
  | openEdit (s : ComponentState) (t : Task) : Step s (openEditModal s t)
  | closeM (s : ComponentState) : Step s (closeModal s)
  | save (s : ComponentState) : Step s (saveTask s).1
  | saveComplete (s : ComponentState) (o : Outcome Task) :
      Step s (saveTaskComplete s o).1
  | delete (s : ComponentState) (id : Option String) (c : Bool) :
      Step s (deleteTaskOp s id c).1
  | deleteComplete (s : ComponentState) (o : Outcome Unit) :
      Step s (deleteTaskComplete s o).1
  | viewDetails (s : ComponentState) (t : Task) : Step s (viewTaskDetails s t)
  | closeDetails (s : ComponentState) : Step s (closeDetailsModal s)

/-- States of the component reachable from its initial state by its
operations. -/
inductive Reachable : ComponentState → Prop where
  | init : Reachable initialState
  | step {s s' : ComponentState} : Reachable s → Step s s' → Reachable s'

/-! Helper lemmas shared by the claim theorems. -/

/-- Validation passes exactly when title, description, status and priority
satisfy the five documented checks. -/
theorem validateTask_true_iff (t : Task) :
    (validateTask t).1 = true ↔
      jsTrim t.title ≠ "" ∧ strLen t.title ≤ TITLE_MAX_LENGTH ∧
      jsTrim t.description ≠ "" ∧ t.status ≠ "" ∧
      PRIORITY_MIN ≤ t.priority ∧ t.priority ≤ PRIORITY_MAX := by
  unfold validateTask
  split_ifs with h1 h2 h3 h4 h5 <;> simp_all [PRIORITY_MIN, PRIORITY_MAX]
  omega

/-- A string whose trim is non-empty is itself non-empty. -/
theorem one_le_strLen_of_jsTrim_ne {s : String} (h : jsTrim s ≠ "") :
    1 ≤ strLen s := by
  rcases s with ⟨data⟩
  cases data with
  | nil => exact absurd (by decide) h
  | cons a l => simp [strLen]

/-! Claim C2. -/

set_option maxRecDepth 100000 in
/-- C2: `validateTask` is a pure predicate over the draft checking, in order
and short-circuiting on the first failure (witnessed by the message of the
first failing check): (1) title non-empty after trimming, (2) title length at
most 200, (3) description non-empty after trimming, (4) status truthy,
(5) priority set and within `[1, 5]`; in particular it rejects an empty
title, a 201-character title, an empty description, and priority 10, and
accepts `{title:"Valid Title", description:"Valid Description",
status:"TODO", priority:3}`. -/
theorem claim2_validateTask :
    (∀ t : Task, (validateTask t).1 = true ↔
        jsTrim t.title ≠ "" ∧ strLen t.title ≤ TITLE_MAX_LENGTH ∧
        jsTrim t.description ≠ "" ∧ t.status ≠ "" ∧
        PRIORITY_MIN ≤ t.priority ∧ t.priority ≤ PRIORITY_MAX) ∧
    (∀ t : Task, jsTrim t.title = "" →
        validateTask t = (false, some TITLE_REQUIRED)) ∧
    (∀ t : Task, jsTrim t.title ≠ "" → strLen t.title > TITLE_MAX_LENGTH →
        validateTask t = (false, some TITLE_TOO_LONG)) ∧
    (∀ t : Task, jsTrim t.title ≠ "" → strLen t.title ≤ TITLE_MAX_LENGTH →
        jsTrim t.description = "" →
        validateTask t = (false, some DESCRIPTION_REQUIRED)) ∧
    (∀ t : Task, jsTrim t.title ≠ "" → strLen t.title ≤ TITLE_MAX_LENGTH →
        jsTrim t.description ≠ "" → t.status = "" →
        validateTask t = (false, some STATUS_REQUIRED)) ∧
    (∀ t : Task, jsTrim t.title ≠ "" → strLen t.title ≤ TITLE_MAX_LENGTH →
        jsTrim t.description ≠ "" → t.status ≠ "" →
        ¬(PRIORITY_MIN ≤ t.priority ∧ t.priority ≤ PRIORITY_MAX) →
        validateTask t = (false, some PRIORITY_INVALID)) ∧
    validateTask emptyTitleDraft = (false, some TITLE_REQUIRED) ∧
    validateTask longTitleDraft = (false, some TITLE_TOO_LONG) ∧
    validateTask emptyDescriptionDraft = (false, some DESCRIPTION_REQUIRED) ∧
    validateTask priorityTenDraft = (false, some PRIORITY_INVALID) ∧
    validateTask wellFormedDraft = (true, none) := by
  refine ⟨validateTask_true_iff, ?_, ?_, ?_, ?_, ?_, ?_, ?_, ?_, ?_, ?_⟩
  · intro t h1
    simp [validateTask, h1]
  · intro t h1 h2
    simp [validateTask, h1, h2]
  · intro t h1 h2 h3
    simp [validateTask, h1, h3]
    omega
  · intro t h1 h2 h3 h4
    simp [validateTask, h1, h3, h4]
    omega
  · intro t h1 h2 h3 h4 h5
    have hp : t.priority = 0 ∨ t.priority < PRIORITY_MIN ∨ t.priority > PRIORITY_MAX := by
      simp only [PRIORITY_MIN, PRIORITY_MAX] at h5 ⊢
      omega
    simp [validateTask, h1, h3, h4, hp]
    omega
  · decide
  · decide
  · decide
  · decide
  · decide

/-- C2 witness: the hypotheses of the conditional conjuncts are discharged at
the concrete drafts. -/
theorem claim2_validateTask_witness :
    validateTask emptyTitleDraft = (false, some TITLE_REQUIRED) ∧
    validateTask priorityTenDraft = (false, some PRIORITY_INVALID) :=
  ⟨claim2_validateTask.2.1 emptyTitleDraft (by decide),
   claim2_validateTask.2.2.2.2.2.1 priorityTenDraft (by decide) (by decide)
     (by decide) (by decide) (by decide)⟩

/-! Claim C3. -/

set_option maxRecDepth 1000000 in
/-- C3 counterexample: a draft whose description has 1001 characters is
accepted by `validateTask` yet violates the §3 data-model invariant, which
bounds the description by `DESCRIPTION_MAX_LENGTH = 1000`; `validateTask`
never checks the description length. -/
theorem claim3_counterexample :
    (validateTask longDescriptionDraft).1 = true ∧
    specDataInvariant longDescriptionDraft = false ∧
    strLen longDescriptionDraft.description = 1001 := by
  refine ⟨by decide, by decide, ?_⟩
  simp [strLen, longDescriptionDraft, wellFormedDraft]

/-- C3 amended: every draft accepted by `validateTask` satisfies the §3
data-model invariant except for the description-length bound — title
non-empty after trimming and of length 1–200, description non-empty after
trimming (its length is unbounded), status set, and priority in `[1, 5]`. -/
theorem claim3_accepted_draft_invariant (t : Task)
    (h : (validateTask t).1 = true) :
    jsTrim t.title ≠ "" ∧ 1 ≤ strLen t.title ∧ strLen t.title ≤ TITLE_MAX_LENGTH ∧
    jsTrim t.description ≠ "" ∧ t.status ≠ "" ∧
    PRIORITY_MIN ≤ t.priority ∧ t.priority ≤ PRIORITY_MAX := by
  obtain ⟨h1, h2, h3, h4, h5, h6⟩ := (validateTask_true_iff t).mp h
  exact ⟨h1, one_le_strLen_of_jsTrim_ne h1, h2, h3, h4, h5, h6⟩

/-- C3 witness: the amended theorem applied to the accepted well-formed
draft. -/
theorem claim3_accepted_draft_invariant_witness :
    jsTrim wellFormedDraft.title ≠ "" ∧ 1 ≤ strLen wellFormedDraft.title ∧
    strLen wellFormedDraft.title ≤ TITLE_MAX_LENGTH ∧
    jsTrim wellFormedDraft.description ≠ "" ∧ wellFormedDraft.status ≠ "" ∧
    PRIORITY_MIN ≤ wellFormedDraft.priority ∧
    wellFormedDraft.priority ≤ PRIORITY_MAX :=
  claim3_accepted_draft_invariant wellFormedDraft (by decide)

/-! Claim C1. -/

/-- Membership in the parameter list of one optional string field. -/
theorem mem_strParam {n name val : String} {v : Option String} :
    (name, val) ∈ strParam n v ↔ name = n ∧ v = some val ∧ val ≠ "" := by
  cases v with
  | none => simp [strParam]
  | some s =>
    by_cases h : s = "" <;> simp [strParam, h] <;> aesop

/-- Membership in the parameter list of the optional priority field. -/
theorem mem_intParam {name val : String} {n : String} {v : Option Int} :
    (name, val) ∈ intParam n v ↔
      name = n ∧ ∃ p, v = some p ∧ val = toString p := by
  cases v with
  | none => simp [intParam]
  | some p =>
    simp only [intParam, List.mem_singleton, Prod.mk.injEq, Option.some.injEq]
    constructor
    · rintro ⟨rfl, rfl⟩
      exact ⟨rfl, p, rfl, rfl⟩
    · rintro ⟨rfl, q, hq, rfl⟩
      cases hq
      exact ⟨rfl, rfl⟩

/-- C1 counterexample: the filter object whose only set field is
`priority = 0` — a falsy value — still produces the query parameter
`priority=0`, refuting the claim that every absent or falsy field produces no
query parameter at all. -/
theorem claim1_counterexample :
    jsFalsyNum 0 = true ∧
    getAllTasksParams (some { priority := some 0 }) = [("priority", "0")] := by
  decide

/-- C1 amended: with no filter object no parameter is produced; with a filter
object, each of the six string fields produces its identically-named,
identically-valued parameter exactly when it is set and non-empty (so absent
or falsy string fields produce none), while `priority` produces its
decimal-string parameter exactly when it is set — even when it is the falsy
value `0`. -/
theorem claim1_query_params :
    getAllTasksParams none = [] ∧
    ∀ (f : TaskFilterParams) (name val : String),
      (name, val) ∈ getAllTasksParams (some f) ↔
        (name = "status" ∧ f.status = some val ∧ val ≠ "") ∨
        (name = "priority" ∧ ∃ p, f.priority = some p ∧ val = toString p) ∨
        (name = "dueDateFrom" ∧ f.dueDateFrom = some val ∧ val ≠ "") ∨
        (name = "dueDateTo" ∧ f.dueDateTo = some val ∧ val ≠ "") ∨
        (name = "search" ∧ f.search = some val ∧ val ≠ "") ∨
        (name = "sortBy" ∧ f.sortBy = some val ∧ val ≠ "") ∨
        (name = "sortDirection" ∧ f.sortDirection = some val ∧ val ≠ "") := by
  refine ⟨rfl, fun f name val => ?_⟩
  simp only [getAllTasksParams, List.mem_append, mem_strParam, mem_intParam,
    or_assoc]

/-! Claim C4. -/

/-- C4 counterexample: a state in edit mode (`isEditMode = true`) whose valid
draft has no id — `saveTask` dispatches `createTask`, not `updateTask`, so
the dispatch is not determined by the edit-mode flag alone. -/
theorem claim4_counterexample :
    editNoIdState.isEditMode = true ∧
    (validateTask editNoIdState.currentTask).1 = true ∧
    (saveTask editNoIdState).2 =
      [ApiRequest.createTask editNoIdState.currentTask] := by
  decide

/-- C4 amended: when `validateTask` fails, `saveTask` issues no request and
leaves the state unchanged; when it passes, `saveTask` only sets `loading`
and dispatches `updateTask` exactly when the edit-mode flag is true and the
draft id is truthy (present and non-empty), dispatching `createTask` in
every other case. -/
theorem claim4_saveTask_dispatch :
    (∀ s : ComponentState,
      (validateTask s.currentTask).1 = false → saveTask s = (s, [])) ∧
    (∀ s : ComponentState, (validateTask s.currentTask).1 = true →
      (saveTask s).1 = { s with loading := true } ∧
      ((s.isEditMode && idTruthy s.currentTask.id) = true →
        (saveTask s).2 =
          [ApiRequest.updateTask (s.currentTask.id.getD "") s.currentTask]) ∧
      ((s.isEditMode && idTruthy s.currentTask.id) = false →
        (saveTask s).2 = [ApiRequest.createTask s.currentTask])) := by
  constructor
  · intro s h
    simp [saveTask, h]
  · intro s h
    have h' : ¬((validateTask s.currentTask).1 = false) := by simp [h]
    refine ⟨by simp [saveTask, h'], fun hb => ?_, fun hb => ?_⟩
    · simp [saveTask, h', hb]
    · simp [saveTask, h', hb]

/-- C4 witness: both branches of the amended theorem at concrete states — an
invalid draft leaves the initial state untouched, and a valid edit-mode
draft with id `"42"` dispatches `updateTask`. -/
theorem claim4_saveTask_dispatch_witness :
    saveTask initialState = (initialState, []) ∧
    (saveTask editWithIdState).2 =
      [ApiRequest.updateTask "42" editWithIdState.currentTask] :=
  ⟨claim4_saveTask_dispatch.1 initialState (by decide),
   ((claim4_saveTask_dispatch.2 editWithIdState (by decide)).2.1 (by decide))⟩

/-! Claim C5. -/

/-- C5: from any state, `clearFilters` resets every filter field to its
documented default — status, priority, search and both due-date bounds
empty, `sortBy` and `sortDirection` to the default sort — and issues exactly
one request, a task-list reload. -/
theorem claim5_clearFilters (s : ComponentState) :
    (clearFilters s).1.filterStatus = "" ∧
    (clearFilters s).1.filterPriority = "" ∧
    (clearFilters s).1.searchQuery = "" ∧
    (clearFilters s).1.dueDateFrom = "" ∧
    (clearFilters s).1.dueDateTo = "" ∧
    (clearFilters s).1.sortBy = DEFAULT_SORT_BY ∧
    (clearFilters s).1.sortDirection = DEFAULT_SORT_DIRECTION ∧
    (clearFilters s).2.length = 1 ∧
    (∃ p, (clearFilters s).2 = [ApiRequest.listTasks p]) :=
  ⟨rfl, rfl, rfl, rfl, rfl, rfl, rfl, rfl, ⟨_, rfl⟩⟩

/-! Claim C6. -/

/-- C6: `deleteTask` issues no request and changes no state when the id is
absent, and none when the confirmation is declined; a request is issued only
for a truthy id with an accepted confirmation, in which case exactly the
delete request for that id is issued; its success handler issues the reload
and its failure handler sets the fixed delete-failed message. -/
theorem claim6_deleteTask :
    (∀ (s : ComponentState) (c : Bool), deleteTaskOp s none c = (s, [])) ∧
    (∀ (s : ComponentState) (id : Option String),
        deleteTaskOp s id false = (s, [])) ∧
    (∀ (s : ComponentState) (id : Option String) (c : Bool),
        (deleteTaskOp s id c).2 ≠ [] → idTruthy id = true ∧ c = true) ∧
    (∀ (s : ComponentState) (i : String), i ≠ "" →
        deleteTaskOp s (some i) true =
          ({ s with loading := true }, [ApiRequest.deleteTask i])) ∧
    (∀ s : ComponentState,
        (deleteTaskComplete s (Outcome.success ())).2 =
          [ApiRequest.listTasks (getAllTasksParams (some (buildFilterParams s)))]) ∧
    (∀ s : ComponentState,
        deleteTaskComplete s Outcome.failure =
          ({ s with error := DELETE_FAILED, loading := false }, [])) := by
  refine ⟨?_, ?_, ?_, ?_, fun s => rfl, fun s => rfl⟩
  · intro s c
    simp [deleteTaskOp, idTruthy]
  · intro s id
    by_cases h : idTruthy id = false <;> simp [deleteTaskOp, h]
  · intro s id c h
    unfold deleteTaskOp at h
    split_ifs at h with h1 h2
    · exact absurd rfl h
    · exact absurd rfl h
    · exact ⟨by simpa using h1, by simpa using h2⟩
  · intro s i h
    simp [deleteTaskOp, idTruthy, h]

/-- C6 witness: the conditional conjuncts discharged at the concrete id
`"42"`. -/
theorem claim6_deleteTask_witness :
    deleteTaskOp initialState (some "42") true =
      ({ initialState with loading := true }, [ApiRequest.deleteTask "42"]) :=
  claim6_deleteTask.2.2.2.1 initialState "42" (by decide)

/-! Claim C7. -/

/-- C7: each of `loadTasks`, `saveTask` (once validation passes) and
`deleteTask` (once the id is truthy and the confirmation accepted) sets
`loading` when it issues its request, and its completion clears `loading` on
both the success and the failure outcome; a failed load sets the fixed
load-failed message and leaves the task collection unchanged. -/
theorem claim7_loading_lifecycle :
    (∀ s : ComponentState, (loadTasksStart s).1.loading = true) ∧
    (∀ (s : ComponentState) (o : Outcome (List Task)),
        (loadTasksComplete s o).loading = false) ∧
    (∀ s : ComponentState, (validateTask s.currentTask).1 = true →
        (saveTask s).1.loading = true) ∧
    (∀ (s : ComponentState) (o : Outcome Task),
        (saveTaskComplete s o).1.loading = false) ∧
    (∀ (s : ComponentState) (i : String), i ≠ "" →
        (deleteTaskOp s (some i) true).1.loading = true) ∧
    (∀ (s : ComponentState) (o : Outcome Unit),
        (deleteTaskComplete s o).1.loading = false) ∧
    (∀ s : ComponentState,
        (loadTasksComplete s Outcome.failure).error = LOAD_FAILED ∧
        (loadTasksComplete s Outcome.failure).tasks = s.tasks) := by
  refine ⟨fun s => rfl, ?_, ?_, ?_, ?_, ?_, fun s => ⟨rfl, rfl⟩⟩
  · intro s o
    cases o <;> rfl
  · intro s h
    have h' : ¬((validateTask s.currentTask).1 = false) := by simp [h]
    simp [saveTask, h']
  · intro s o
    cases o <;> rfl
  · intro s i h
    simp [deleteTaskOp, idTruthy, h]
  · intro s o
    cases o <;> rfl

/-- C7 witness: the conditional conjuncts discharged at concrete states. -/
theorem claim7_loading_lifecycle_witness :
    (saveTask editWithIdState).1.loading = true ∧
    (deleteTaskOp initialState (some "42") true).1.loading = true :=
  ⟨claim7_loading_lifecycle.2.2.1 editWithIdState (by decide),
   claim7_loading_lifecycle.2.2.2.2.1 initialState "42" (by decide)⟩

/-! Claim C8. -/

/-- C8: `getTimeAgo` maps an age of `t` seconds to `"Just now"` for
`t < 60`, to `floor(t/60)` followed by `"m ago"` for `60 ≤ t < 3600`, to
`floor(t/3600)` followed by `"h ago"` for `3600 ≤ t < 86400`, to
`floor(t/86400)` followed by `"d ago"` for `86400 ≤ t < 604800`, and to the
absolute date string for `604800 ≤ t`; in particular an age of 5 minutes
renders ending in `"m ago"` and an age of 0 renders exactly `"Just now"`. -/
theorem claim8_getTimeAgo :
    (∀ (t : Int) (d : String),
      (0 ≤ t → t < 60 → getTimeAgo t d = "Just now") ∧
      (60 ≤ t → t < 3600 → getTimeAgo t d = toString (t.fdiv 60) ++ "m ago") ∧
      (3600 ≤ t → t < 86400 → getTimeAgo t d = toString (t.fdiv 3600) ++ "h ago") ∧
      (86400 ≤ t → t < 604800 → getTimeAgo t d = toString (t.fdiv 86400) ++ "d ago") ∧
      (604800 ≤ t → getTimeAgo t d = d)) ∧
    (∀ d : String, ∃ pre, getTimeAgo 300 d = pre ++ "m ago") ∧
    (∀ d : String, getTimeAgo 0 d = "Just now") := by
  have hgen : ∀ (t : Int) (d : String),
      (0 ≤ t → t < 60 → getTimeAgo t d = "Just now") ∧
      (60 ≤ t → t < 3600 → getTimeAgo t d = toString (t.fdiv 60) ++ "m ago") ∧
      (3600 ≤ t → t < 86400 → getTimeAgo t d = toString (t.fdiv 3600) ++ "h ago") ∧
      (86400 ≤ t → t < 604800 → getTimeAgo t d = toString (t.fdiv 86400) ++ "d ago") ∧
      (604800 ≤ t → getTimeAgo t d = d) := by
    intro t d
    refine ⟨?_, ?_, ?_, ?_, ?_⟩ <;> intros <;> unfold getTimeAgo <;>
      split_ifs <;> first | rfl | omega
  refine ⟨hgen, fun d => ⟨"5", ?_⟩, fun d => rfl⟩
  have h300 := (hgen 300 d).2.1 (by omega) (by omega)
  have h5 : toString ((300 : Int).fdiv 60) = "5" := by decide
  rw [h300, h5]

/-- C8 witness: the threshold cases discharged at concrete ages. -/
theorem claim8_getTimeAgo_witness :
    getTimeAgo 0 "Jan 1" = "Just now" ∧
    getTimeAgo 300 "Jan 1" = toString ((300 : Int).fdiv 60) ++ "m ago" ∧
    getTimeAgo 7200 "Jan 1" = toString ((7200 : Int).fdiv 3600) ++ "h ago" ∧
    getTimeAgo 100000 "Jan 1" = toString ((100000 : Int).fdiv 86400) ++ "d ago" ∧
    getTimeAgo 700000 "Jan 1" = "Jan 1" :=
  ⟨(claim8_getTimeAgo.1 0 "Jan 1").1 (by decide) (by decide),
   (claim8_getTimeAgo.1 300 "Jan 1").2.1 (by decide) (by decide),
   (claim8_getTimeAgo.1 7200 "Jan 1").2.2.1 (by decide) (by decide),
   (claim8_getTimeAgo.1 100000 "Jan 1").2.2.2.1 (by decide) (by decide),
   (claim8_getTimeAgo.1 700000 "Jan 1").2.2.2.2 (by decide)⟩

/-! Claim C9. -/

/-- C9 counterexample: for the status code `"BOGUS"`, absent from the lookup
tables, `getStatusLabel` returns the unrecognized input code itself, not a
generic unknown fallback value. -/
theorem claim9_counterexample :
    STATUS_LABELS.lookup "BOGUS" = none ∧ getStatusLabel "BOGUS" = "BOGUS" := by
  decide

/-- C9 amended: each of the six lookup helpers returns the table entry for
every code in its table; for a code absent from the table, five of them
(`getPriorityLabel`, `getPriorityIcon`, `getPriorityClass`, `getStatusIcon`,
`getStatusClass`) return their generic fallback value, while
`getStatusLabel` returns the unrecognized input code itself. -/
theorem claim9_lookup_helpers :
    (∀ p : Int, PRIORITY_LABELS.lookup p = none → getPriorityLabel p = "Unknown") ∧
    (∀ (p : Int) (l : String),
        PRIORITY_LABELS.lookup p = some l → getPriorityLabel p = l) ∧
    (∀ p : Int, PRIORITY_ICONS.lookup p = none → getPriorityIcon p = "bi bi-circle") ∧
    (∀ (p : Int) (l : String),
        PRIORITY_ICONS.lookup p = some l → getPriorityIcon p = l) ∧
    (∀ p : Int, PRIORITY_CLASSES.lookup p = none → getPriorityClass p = "bg-secondary") ∧
    (∀ (p : Int) (l : String),
        PRIORITY_CLASSES.lookup p = some l → getPriorityClass p = l) ∧
    (∀ st : String, STATUS_LABELS.lookup st = none → getStatusLabel st = st) ∧
    (∀ (st l : String), STATUS_LABELS.lookup st = some l → getStatusLabel st = l) ∧
    (∀ st : String, STATUS_ICONS.lookup st = none →
        getStatusIcon st = "bi bi-question-circle") ∧
    (∀ (st l : String), STATUS_ICONS.lookup st = some l → getStatusIcon st = l) ∧
    (∀ st : String, STATUS_CLASSES.lookup st = none → getStatusClass st = "bg-secondary") ∧
    (∀ (st l : String), STATUS_CLASSES.lookup st = some l → getStatusClass st = l) := by
  refine ⟨?_, ?_, ?_, ?_, ?_, ?_, ?_, ?_, ?_, ?_, ?_, ?_⟩ <;> intros <;>
    simp [getPriorityLabel, getPriorityIcon, getPriorityClass,
      getStatusLabel, getStatusIcon, getStatusClass, *]

/-- C9 witness: the amended theorem discharged at a recognized and at an
unrecognized code. -/
theorem claim9_lookup_helpers_witness :
    getPriorityLabel 1 = "Critical" ∧
    getPriorityLabel 99 = "Unknown" ∧
    getStatusLabel "TODO" = "To Do" ∧
    getStatusIcon "BOGUS2" = "bi bi-question-circle" :=
  ⟨claim9_lookup_helpers.2.1 1 "Critical" (by decide),
   claim9_lookup_helpers.1 99 (by decide),
   claim9_lookup_helpers.2.2.2.2.2.2.2.1 "TODO" "To Do" (by decide),
   claim9_lookup_helpers.2.2.2.2.2.2.2.2.1 "BOGUS2" (by decide)⟩

/-! Claim C10. -/

/-- Every component operation preserves `filteredTasks = tasks`: `loadTasks`
is the only writer of either collection and assigns the same response array
to both, and no operation filters tasks client-side. -/
theorem step_preserves_filtered_eq {s s' : ComponentState}
    (hs : Step s s') (ih : s.filteredTasks = s.tasks) :
    s'.filteredTasks = s'.tasks := by
  cases hs with
  | loadStart => simpa [loadTasksStart] using ih
  | loadComplete o =>
    cases o with
    | success data => rfl
    | failure => simpa [loadTasksComplete] using ih
  | applyF => simpa [applyFilters, loadTasksStart] using ih
  | clearF => simpa [clearFilters, loadTasksStart] using ih
  | openCreate => simpa [openCreateModal] using ih
  | openEdit t => simpa [openEditModal] using ih
  | closeM => simpa [closeModal] using ih
  | save =>
    by_cases h : (validateTask s.currentTask).1 = false <;>
      simpa [saveTask, h] using ih
  | saveComplete o =>
    cases o with
    | success d =>
      simpa [saveTaskComplete, closeModal, loadTasksStart] using ih
    | failure => simpa [saveTaskComplete] using ih
  | delete id c =>
    by_cases h1 : idTruthy id = false
    · simpa [deleteTaskOp, h1] using ih
    · by_cases h2 : c = false <;> simpa [deleteTaskOp, h1, h2] using ih
  | deleteComplete o =>
    cases o with
    | success d => simpa [deleteTaskComplete, loadTasksStart] using ih
    | failure => simpa [deleteTaskComplete] using ih
  | viewDetails t => simpa [viewTaskDetails] using ih
  | closeDetails => simpa [closeDetailsModal] using ih

/-- C10: in every reachable component state the `tasks` and `filteredTasks`
collections are identical, so `getTaskCountByStatus` counts exactly the
tasks with the given status in the full last-loaded collection. -/
theorem claim10_filtered_eq_tasks (s : ComponentState) (h : Reachable s) :
    s.filteredTasks = s.tasks ∧
    ∀ st : String,
      getTaskCountByStatus s st = (s.tasks.filter fun t => t.status == st).length := by
  have inv : s.filteredTasks = s.tasks := by
    induction h with
    | init => rfl
    | step hr hs ih => exact step_preserves_filtered_eq hs ih
  exact ⟨inv, fun st => by rw [getTaskCountByStatus, inv]⟩

/-- C10 witness: the invariant instantiated at the reachable initial state
and the status `"TODO"`. -/
theorem claim10_filtered_eq_tasks_witness :
    initialState.filteredTasks = initialState.tasks ∧
    getTaskCountByStatus initialState "TODO" =
      (initialState.tasks.filter fun t => t.status == "TODO").length :=
  ⟨(claim10_filtered_eq_tasks initialState Reachable.init).1,
   (claim10_filtered_eq_tasks initialState Reachable.init).2 "TODO"⟩

end TaskMgmt
